import Mathlib

/-
Verification development for the AgroFlow_Sensor firmware
(src/AgroFlow_Sensor/src/main.cpp).

The definitions below are a shallow embedding of the firmware's pure
control logic.  Hardware and network effects (wireless scan results,
join status polls, broker connect attempts, the analog sensor value,
wall-clock availability, the persistent key-value store) are passed in
explicitly as parameters; machine side effects (delays, restarts,
store writes) are reified as explicit events or returned state.
-/

set_option maxRecDepth 8000

/- ===== Persistent config store (Preferences, namespace "sensor-config") ===== -/

/--
Model of the Preferences key-value store: the firmware only ever uses the
two string keys named ssid and password.  An absent key read through
getString with default value returns the empty string.
-/
structure Store where
  ssid : Option String
  password : Option String
deriving DecidableEq

/-- Store state after preferences.clear, and also the never-written state. -/
def Store.emptyStore : Store := { ssid := none, password := none }

/-- Model of preferences.getString with default empty string, for the ssid key (main.cpp:292). -/
def storedSsid (s : Store) : String := s.ssid.getD ("")

/-- Model of preferences.getString with default empty string, for the password key (main.cpp:298). -/
def storedPassword (s : Store) : String := s.password.getD ("")

/--
Model of the two putString calls of handleSave (main.cpp:145-146): both keys
are overwritten with the submitted form fields, which may be empty strings.
-/
def handleSaveStore (ssidArg passwordArg : String) (s : Store) : Store :=
  { s with ssid := some ssidArg, password := some passwordArg }

/- ===== Hex rendering (Arduino String(value, HEX) and toUpperCase) ===== -/

/--
Arduino String(n, HEX) renders a nonnegative integer in lowercase
hexadecimal with no zero padding; Nat.toDigits 16 has exactly that
behavior (value 0 renders as the single digit 0).
-/
def hexString (n : Nat) : String := String.mk (Nat.toDigits 16 n)

/-- Arduino String.toUpperCase maps every character through ASCII uppercasing. -/
def toUpperString (s : String) : String := String.mk (s.data.map Char.toUpper)

/--
Rendering of one MAC-address byte inside the unique-id loop of setup
(main.cpp:274-277): a zero digit is prepended when the byte is below 16,
then the byte in hex; the whole id is uppercased afterwards, which acts
per byte.
-/
def byteHexPadded (b : Nat) : List Char :=
  ((if b < 16 then ['0'] else []) ++ Nat.toDigits 16 b).map Char.toUpper

/--
Model of the unique-id derivation of setup (main.cpp:272-278): each of the
6 MAC bytes is appended as two-digit zero-padded hex, and the resulting
string is uppercased (String.toUpperCase).
-/
def deriveIdentityChars (mac : List Nat) : List Char :=
  (mac.foldl (fun acc b => acc ++ (if b < 16 then ['0'] else []) ++ Nat.toDigits 16 b) []).map
    Char.toUpper

/-- String form of the derived device identity. -/
def deriveIdentity (mac : List Nat) : String := String.mk (deriveIdentityChars mac)

/-- Checker for an uppercase hexadecimal digit. -/
def isUpperHexDigit (c : Char) : Bool := ("0123456789ABCDEF".data).contains c

/--
Model of the access-point name built by startConfigurationPortal
(main.cpp:156-159): the literal product prefix, a dash, then bytes 4-6 of
the MAC address rendered with String(mac[i], HEX) — lowercase, NOT
zero-padded — and finally apName.toUpperCase() applied to the whole string.
-/
def apName (mac : List Nat) : String :=
  toUpperString (("AgroFlowSensor-") ++ hexString (mac.getD 3 0) ++ hexString (mac.getD 4 0) ++
    hexString (mac.getD 5 0))

/- ===== GET /scan handler ===== -/

/-- One scanned network: name (SSID) and signal strength (RSSI). -/
def jsonEntry (ssid : String) (rssi : Int) : String :=
  ("\x7b\"ssid\":\"") ++ ssid ++ ("\",\"rssi\":") ++ toString rssi ++ ("\x7d")

/--
Model of the loop body of handleScan (main.cpp:136-140), indexed exactly as
the C++ loop: entry i with empty SSID is skipped by continue, and a comma
is emitted whenever the C++ index i is positive — even when no object has
been emitted yet.
-/
def handleScanAux : Nat → List (String × Int) → String
  | _, [] => ("")
  | i, net :: rest =>
    if net.fst = ("") then handleScanAux (i + 1) rest
    else (if 0 < i then (",") else ("")) ++ jsonEntry net.fst net.snd ++ handleScanAux (i + 1) rest

/-- Model of the full body string produced by handleScan (main.cpp:133-143). -/
def handleScanJson (nets : List (String × Int)) : String :=
  ("[") ++ handleScanAux 0 nets ++ ("]")

/- ===== Boot-time connect loop (setup, main.cpp:304-313) ===== -/

/-- Outcome of the boot-time join loop, carrying the number of 500 ms delays performed. -/
inductive ConnectOutcome where
  | connected (delays : Nat)
  | escalated (delays : Nat)
deriving DecidableEq

/--
Model of the while loop of setup (main.cpp:304-313).  The C++ loop checks
the join status, and on failure delays 500 ms, increments retries, and
escalates to clearConfigAndRestart as soon as retries exceeds 40.  Here
status r is the result of the status check made after r delays, r is the
C++ retries counter at loop entry, and the structural countdown argument
equals 40 - r, so the escalation condition retries > 40 is reached exactly
when the countdown hits zero.
-/
def connectLoopAux (status : Nat → Bool) : Nat → Nat → ConnectOutcome
  | r, 0 => if status r then ConnectOutcome.connected r else ConnectOutcome.escalated (r + 1)
  | r, c + 1 => if status r then ConnectOutcome.connected r else connectLoopAux status (r + 1) c

/-- The connect loop as entered by setup: retries starts at 0, bound 40. -/
def connectLoop (status : Nat → Bool) : ConnectOutcome := connectLoopAux status 0 40

/- ===== Boot sequence (setup, main.cpp:266-323) ===== -/

/--
Boot environment: the state of the world that setup reads.  pinLow is the
boot-time reading of the physical reset pin, storeOpenOk is the result of
preferences.begin (main.cpp:291), store is the persisted key-value state,
and wifiStatus r tells whether the join-status check after r delays reports
connected.
-/
structure BootEnv where
  pinLow : Bool
  storeOpenOk : Bool
  store : Store
  wifiStatus : Nat → Bool

/-- Outcome of one run of setup. -/
inductive BootOutcome where
  | factoryReset
  | portalActive
  | operating (delays : Nat)
  | credentialsCleared
deriving DecidableEq

/--
Model of setup (main.cpp:266-323).  Note that the boolean returned by
preferences.begin at main.cpp:291 is discarded by the firmware — the
environment field storeOpenOk is deliberately never read here, mirroring
the source exactly.
-/
def setupRun (env : BootEnv) : BootOutcome :=
  if env.pinLow then BootOutcome.factoryReset
  else
    if storedSsid env.store = ("") then BootOutcome.portalActive
    else
      match connectLoop env.wifiStatus with
      | ConnectOutcome.connected d => BootOutcome.operating d
      | ConnectOutcome.escalated _ => BootOutcome.credentialsCleared

/-- The mode chosen by the credential check at main.cpp:294-296. -/
inductive BootMode where
  | portalActive
  | connecting
deriving DecidableEq

/--
Model of the branch at main.cpp:294-296: an empty (or absent) stored ssid
starts the configuration portal, any other value starts the network join.
-/
def bootModeOf (s : Store) : BootMode :=
  if storedSsid s = ("") then BootMode.portalActive else BootMode.connecting

/-- Concrete boot environment with a failed store open, used to exhibit that the result is ignored. -/
def bootEnvStoreFail : BootEnv :=
  { pinLow := false, storeOpenOk := false, store := Store.emptyStore, wifiStatus := fun _ => false }

/- ===== Sensor reading (readSensorData, main.cpp:182-199) ===== -/

/-- Dry-soil calibration constant (main.cpp:45). -/
def DRY_VALUE : Int := 2850

/-- Wet-soil calibration constant (main.cpp:46). -/
def WET_VALUE : Int := 1350

/--
Arduino map() with C++ integer arithmetic: truncated (toward-zero)
division, which Int.tdiv implements.
-/
def mapValue (x inMin inMax outMin outMax : Int) : Int :=
  Int.tdiv ((x - inMin) * (outMax - outMin)) (inMax - inMin) + outMin

/-- Arduino constrain(): clamp below lo to lo and above hi to hi. -/
def constrainValue (x lo hi : Int) : Int :=
  if x < lo then lo else if hi < x then hi else x

/--
Model of readSensorData (main.cpp:182-199) as a function of the raw analog
value: map from the dry/wet calibration interval onto 0..100, then
constrain into 0..100.  The C++ function returns the resulting integer
cast to float; 0..100 integers are exact in float, so the Int result is a
faithful model.
-/
def readSensorData (raw : Int) : Int :=
  constrainValue (mapValue raw DRY_VALUE WET_VALUE 0 100) 0 100

/- ===== Telemetry cycle (publishSensorData, main.cpp:242-262) ===== -/

/--
Model of getUnixTimestampMillis (main.cpp:120-129): when getLocalTime
fails (clock not yet synchronized, modeled as none) the function returns
0; otherwise it returns the epoch seconds times 1000.
-/
def getUnixTimestampMillis (timeSync : Option Nat) : Nat :=
  match timeSync with
  | none => 0
  | some t => t * 1000

/-- The published telemetry payload fields (main.cpp:252-255). -/
structure Payload where
  id : String
  humidity : Int
  timestamp : Nat
deriving DecidableEq

/--
Result of one telemetry cycle: sampledRaw records the analog value read
from the sensor when the sensor was sampled during the cycle, and
published is the payload handed to mqtt.publish when one was.
-/
structure PubCycle where
  sampledRaw : Option Int
  published : Option Payload
deriving DecidableEq

/--
Model of publishSensorData (main.cpp:242-262).  The source calls
readSensorData() first — sampling the sensor unconditionally — and only
then fetches the timestamp; when the timestamp is 0 it logs and returns
without publishing.
-/
def publishSensorData (uid : String) (raw : Int) (timeSync : Option Nat) : PubCycle :=
  let humidity := readSensorData raw
  let ts := getUnixTimestampMillis timeSync
  if ts = 0 then { sampledRaw := some raw, published := none }
  else
    { sampledRaw := some raw,
      published := some { id := uid, humidity := humidity, timestamp := ts } }

/- ===== Operating loop (loop, main.cpp:325-348) and reconnectMQTT ===== -/

/-- Observable events of one pass through the operating-mode code. -/
inductive Ev where
  | pollPin
  | wifiCheck
  | delayMs (ms : Nat)
  | mqttAttempt
  | mqttSubscribe
  | publishMsg
  | clearStore
  | restart
deriving DecidableEq

/-- Number of reset-pin polls in an event trace. -/
def pinPolls : List Ev → Nat
  | [] => 0
  | Ev.pollPin :: rest => pinPolls rest + 1
  | _ :: rest => pinPolls rest

/-- Total milliseconds of explicit delay in an event trace. -/
def elapsedMs : List Ev → Nat
  | [] => 0
  | Ev.delayMs n :: rest => n + elapsedMs rest
  | _ :: rest => elapsedMs rest

/--
Model of reconnectMQTT (main.cpp:224-239): while the broker is not
connected, attempt a connect; on success subscribe to the command topic
and return; on failure delay 5000 ms and retry.  brokerOk k is the result
of the k-th connect attempt; the structural fuel argument bounds how many
attempts are modeled (the C++ loop itself has no bound at all).  No
reset-pin poll occurs anywhere in this loop.
-/
def reconnectEvents (brokerOk : Nat → Bool) : Nat → Nat → List Ev
  | _, 0 => []
  | k, fuel + 1 =>
    if brokerOk k then [Ev.mqttAttempt, Ev.mqttSubscribe]
    else Ev.mqttAttempt :: Ev.delayMs 5000 :: reconnectEvents brokerOk (k + 1) fuel

/--
Environment of one operating-loop iteration: the reset-pin level, the
station connectivity check, whether the broker session is still up, the
outcomes of successive broker connect attempts, the modeling bound for
those attempts, and whether the 5000 ms telemetry timer has fired.
-/
structure LoopEnv where
  pinLow : Bool
  wifiConnected : Bool
  mqttConnected : Bool
  brokerOk : Nat → Bool
  reconnectFuel : Nat
  msgDue : Bool

/--
Event trace of one iteration of loop (main.cpp:325-348): poll the reset
pin; if low, clear the store, delay 1000 ms and restart
(clearConfigAndRestart, main.cpp:113-118).  Otherwise check station
connectivity; if lost, delay 1000 ms and restart WITHOUT clearing the
store (main.cpp:331-335).  Otherwise run reconnectMQTT if the broker
session is down, then publish if the telemetry timer fired.
-/
def loopIterEvents (env : LoopEnv) : List Ev :=
  Ev.pollPin ::
    (if env.pinLow then [Ev.clearStore, Ev.delayMs 1000, Ev.restart]
     else
       Ev.wifiCheck ::
         (if env.wifiConnected = false then [Ev.delayMs 1000, Ev.restart]
          else
            (if env.mqttConnected then [] else reconnectEvents env.brokerOk 0 env.reconnectFuel) ++
              (if env.msgDue then [Ev.publishMsg] else [])))

/--
Store state after one iteration of loop: only the reset-pin path
(clearConfigAndRestart) touches the store; the connectivity-loss restart
leaves it untouched.
-/
def loopIterStore (env : LoopEnv) (s : Store) : Store :=
  if env.pinLow then Store.emptyStore else s

/-- A provisioned store holding a configured home network. -/
def storeHome : Store := { ssid := some ("Home"), password := some ("pw") }

/-- Loop environment in which station connectivity has been lost. -/
def envWifiLost : LoopEnv :=
  { pinLow := false, wifiConnected := false, mqttConnected := false,
    brokerOk := fun _ => false, reconnectFuel := 0, msgDue := false }

/-- Loop environment in which the broker rejects the first fuel connect attempts. -/
def envBrokerDown (fuel : Nat) : LoopEnv :=
  { pinLow := false, wifiConnected := true, mqttConnected := false,
    brokerOk := fun _ => false, reconnectFuel := fuel, msgDue := false }

/- ================= Theorems ================= -/

/- ===== Claim C1 ===== -/

/--
Claim C1: the GET /scan handler is claimed to return a well-formed JSON
array for every scan outcome, one object per non-empty-named network in
scan order, with the empty scan giving the empty array.  The firmware
violates this: its comma is keyed on the C++ loop index rather than on
whether an object was already emitted, so a scan whose first entry has an
empty name produces a leading comma — not valid JSON.  This theorem
evaluates the handler on the empty scan (fine), on a normal two-network
scan (fine), and on the failing input whose first network is hidden.
-/
theorem handleScan_leading_comma_on_hidden_first :
    handleScanJson [] = ("[]") ∧
    handleScanJson [(("A"), -40), (("B"), -70)] =
      ("[\x7b\"ssid\":\"A\",\"rssi\":-40\x7d,\x7b\"ssid\":\"B\",\"rssi\":-70\x7d]") ∧
    handleScanJson [(("" : String), -50), (("A"), -40)] =
      ("[,\x7b\"ssid\":\"A\",\"rssi\":-40\x7d]") := by
  refine ⟨by decide, by decide, by decide⟩

/- ===== Claim C2 ===== -/

/--
Helper: if every status check up to index r + c fails, the connect loop
starting from retries r with countdown c escalates after r + c + 1 delays.
-/
theorem connectLoopAux_all_fail (status : Nat → Bool) :
    ∀ c r, (∀ k, k ≤ r + c → status k = false) →
      connectLoopAux status r c = ConnectOutcome.escalated (r + c + 1) := by
  intro c
  induction c with
  | zero =>
    intro r h
    have hr : status r = false := h r (by omega)
    simp [connectLoopAux, hr]
  | succ c ih =>
    intro r h
    have hr : status r = false := h r (by omega)
    have := ih (r + 1) (fun k hk => h k (by omega))
    simp [connectLoopAux, hr, this]
    omega

/--
Claim C2 (counterexample): the claim says a never-succeeding join makes
the boot-time loop perform exactly 40 polling attempts before escalating.
On a status that never reports connected the loop in fact performs 41
500 ms delays before escalating, because the escalation test is
retries greater than 40.
-/
theorem connectLoop_never_succeeds_cex :
    connectLoop (fun _ => false) = ConnectOutcome.escalated 41 ∧
    ConnectOutcome.escalated 41 ≠ ConnectOutcome.escalated 40 := by
  refine ⟨by decide, by decide⟩

/--
Claim C2 (amended): if the configured network join never succeeds within
the checks the loop makes (checks 0 through 40), the boot-time connect
loop performs exactly 41 polling attempts (500 ms apart) and then
escalates to the factory-reset-and-restart path — never fewer, never
more.
-/
theorem connect_retry_escalates_after_41 (status : Nat → Bool)
    (h : ∀ k, k ≤ 40 → status k = false) :
    connectLoop status = ConnectOutcome.escalated 41 := by
  have := connectLoopAux_all_fail status 40 0 (fun k hk => h k (by omega))
  simpa [connectLoop] using this

/-- Witness for connect_retry_escalates_after_41 at a concrete status function. -/
theorem connect_retry_escalates_after_41_witness :
    connectLoop (fun k => decide (100 < k)) = ConnectOutcome.escalated 41 :=
  connect_retry_escalates_after_41 (fun k => decide (100 < k)) (by decide)

/- ===== Claim C4 ===== -/

/--
Claim C4: the access-point name is claimed to be the product prefix, a
dash, and exactly 6 uppercase hex characters rendering bytes 4-6 of the
hardware address two digits each.  The firmware renders each byte with
Arduino String(value, HEX), which does not zero-pad, so for the address
AA:BB:CC:0A:BC:DE the byte 0x0A contributes a single digit and the name
is AGROFLOWSENSOR-ABCDE — a 5-character suffix (total length 20, not 21).
The file's own header comment documents the name as
AgroFlowSensor-XXXXXX, six places, which this contradicts.
-/
theorem apName_unpadded_suffix :
    apName [170, 187, 204, 10, 188, 222] = ("AGROFLOWSENSOR-ABCDE") ∧
    (apName [170, 187, 204, 10, 188, 222]).length = 20 := by
  refine ⟨by decide, by decide⟩

/- ===== Claim C6 ===== -/

/--
Claim C6 (counterexample): the claim says a failed store open at boot is
reported and boot does not proceed as if the store had opened.  In the
firmware the boolean returned by preferences.begin is discarded: with a
failed open the boot proceeds straight to the portal decision and its
outcome is identical to the successful-open run.
-/
theorem store_open_failure_ignored_cex :
    setupRun bootEnvStoreFail = BootOutcome.portalActive ∧
    setupRun bootEnvStoreFail = setupRun { bootEnvStoreFail with storeOpenOk := true } :=
  ⟨rfl, rfl⟩

/--
Claim C6 (amended): opening the persistent config store at boot is never
checked — the result of the open call is discarded, no failure is
reported, and boot proceeds identically whether the open succeeded or
failed.
-/
theorem setup_ignores_store_open_result (env : BootEnv) :
    setupRun env = setupRun { env with storeOpenOk := true } := rfl

/- ===== Claim C10 ===== -/

/--
Claim C10: submitting POST /save with an empty ssid persists the empty
string and, after the restart, the boot-time check reads the empty stored
ssid as unconfigured and re-enters the provisioning portal; for every
stored configuration, the connecting branch is only ever entered with a
non-empty ssid.
-/
theorem save_empty_ssid_reenters_portal :
    (∀ pw s, bootModeOf (handleSaveStore ("") pw s) = BootMode.portalActive) ∧
    (∀ s, bootModeOf s = BootMode.connecting → storedSsid s ≠ ("")) := by
  constructor
  · intro pw s
    simp [bootModeOf, handleSaveStore, storedSsid]
  · intro s h he
    simp [bootModeOf, he] at h

/-- Witness for save_empty_ssid_reenters_portal at concrete stores. -/
theorem save_empty_ssid_reenters_portal_witness :
    bootModeOf (handleSaveStore ("") ("pw") Store.emptyStore) = BootMode.portalActive ∧
    storedSsid storeHome ≠ ("") :=
  ⟨save_empty_ssid_reenters_portal.1 ("pw") Store.emptyStore,
   save_empty_ssid_reenters_portal.2 storeHome (by decide)⟩

/- ===== Claim C3 ===== -/

/--
Claim C3 (counterexample): the claim says connectivity loss during the
Operating state is routed through the single clear-then-restart path, so
the next boot enters the portal.  In the firmware the WiFi-loss branch of
loop calls ESP.restart directly without preferences.clear: the store is
left untouched, no clear event occurs, and a provisioned store makes the
next boot enter the connecting branch, not the portal.
-/
theorem wifi_loss_keeps_credentials_cex :
    loopIterStore envWifiLost storeHome = storeHome ∧
    loopIterEvents envWifiLost = [Ev.pollPin, Ev.wifiCheck, Ev.delayMs 1000, Ev.restart] ∧
    bootModeOf storeHome ≠ BootMode.portalActive := by
  refine ⟨rfl, rfl, by decide⟩

/--
Claim C3 (amended): connectivity loss detected during the Operating state
triggers a plain delay-then-restart that does not clear the stored
credentials; with the store untouched, a boot that still finds a
non-empty ssid re-enters the connecting branch rather than the portal.
Only the reset-pin and remote-reset paths go through clear-then-restart.
-/
theorem wifi_loss_plain_restart (env : LoopEnv) (s : Store)
    (hp : env.pinLow = false) (hw : env.wifiConnected = false) :
    loopIterEvents env = [Ev.pollPin, Ev.wifiCheck, Ev.delayMs 1000, Ev.restart] ∧
    loopIterStore env s = s ∧
    (storedSsid s ≠ ("") → bootModeOf s = BootMode.connecting) := by
  refine ⟨by simp [loopIterEvents, hp, hw], by simp [loopIterStore, hp], ?_⟩
  intro h
  simp [bootModeOf, h]

/-- Witness for wifi_loss_plain_restart at a concrete environment and store. -/
theorem wifi_loss_plain_restart_witness :
    loopIterStore envWifiLost storeHome = storeHome ∧
    bootModeOf storeHome = BootMode.connecting := by
  have h := wifi_loss_plain_restart envWifiLost storeHome rfl rfl
  exact ⟨h.2.1, h.2.2 (by decide)⟩

/- ===== Claim C5 ===== -/

/--
Claim C5 (counterexample): the claim says a telemetry cycle first obtains
the time and, when it is unavailable, aborts without sampling the sensor.
In the firmware publishSensorData calls readSensorData — sampling the
sensor — before it ever looks at the clock, so a cycle with no time
available has still sampled the sensor (and published nothing).
-/
theorem publish_samples_sensor_without_time_cex :
    (publishSensorData ("AB") 2000 none).sampledRaw = some 2000 ∧
    (publishSensorData ("AB") 2000 none).published = none :=
  ⟨rfl, rfl⟩

/--
Claim C5 (amended): each telemetry cycle samples the sensor first and
then obtains the wall-clock time; when time is unavailable the cycle
aborts silently without publishing (the sensor has already been
sampled), and every published payload carries a timestamp greater
than 0.
-/
theorem publish_gates_only_publication (uid : String) (raw : Int) (timeSync : Option Nat) :
    (publishSensorData uid raw timeSync).sampledRaw = some raw ∧
    ((publishSensorData uid raw timeSync).published = none ↔
      getUnixTimestampMillis timeSync = 0) ∧
    (∀ p, (publishSensorData uid raw timeSync).published = some p → 0 < p.timestamp) := by
  by_cases h : getUnixTimestampMillis timeSync = 0
  · refine ⟨by simp [publishSensorData, h], by simp [publishSensorData, h], ?_⟩
    intro p hp
    simp [publishSensorData, h] at hp
  · refine ⟨by simp [publishSensorData, h], by simp [publishSensorData, h], ?_⟩
    intro p hp
    simp [publishSensorData, h] at hp
    have : p.timestamp = getUnixTimestampMillis timeSync := by
      rw [← hp]
    omega

/-- Witness for publish_gates_only_publication at a concrete synced clock. -/
theorem publish_gates_only_publication_witness :
    (publishSensorData ("AB") 2000 (some 5)).sampledRaw = some 2000 ∧
    0 < (Payload.mk ("AB") (readSensorData 2000) 5000).timestamp := by
  have h := publish_gates_only_publication ("AB") 2000 (some 5)
  exact ⟨h.1, h.2.2 (Payload.mk ("AB") (readSensorData 2000) 5000) (by decide)⟩

/- ===== Claim C7 ===== -/

/-- Helper: event traces concatenate additively for the pin-poll count. -/
theorem pinPolls_append (a b : List Ev) : pinPolls (a ++ b) = pinPolls a + pinPolls b := by
  induction a with
  | nil => simp [pinPolls]
  | cons e rest ih =>
    cases e <;> simp [pinPolls, ih, Nat.add_right_comm]

/-- Helper: the reconnect loop of reconnectMQTT never polls the reset pin. -/
theorem pinPolls_reconnectEvents (brokerOk : Nat → Bool) :
    ∀ fuel k, pinPolls (reconnectEvents brokerOk k fuel) = 0 := by
  intro fuel
  induction fuel with
  | zero => intro k; rfl
  | succ f ih =>
    intro k
    by_cases h : brokerOk k
    · simp [reconnectEvents, h, pinPolls]
    · simp [reconnectEvents, h, pinPolls, ih (k + 1)]

/-- Helper: with a broker that rejects every attempt, the reconnect loop delays 5000 ms per attempt. -/
theorem elapsedMs_reconnect_all_fail :
    ∀ fuel k, elapsedMs (reconnectEvents (fun _ => false) k fuel) = 5000 * fuel := by
  intro fuel
  induction fuel with
  | zero => intro k; rfl
  | succ f ih =>
    intro k
    simp [reconnectEvents, elapsedMs, ih (k + 1)]
    omega

/-- Helper: every iteration of the operating loop polls the reset pin exactly once. -/
theorem pinPolls_loopIter (env : LoopEnv) : pinPolls (loopIterEvents env) = 1 := by
  unfold loopIterEvents
  by_cases hp : env.pinLow
  · simp [hp, pinPolls]
  · by_cases hw : env.wifiConnected
    · by_cases hm : env.mqttConnected
      · by_cases hd : env.msgDue <;> simp [hp, hw, hm, hd, pinPolls, pinPolls_append]
      · by_cases hd : env.msgDue <;>
          simp [hp, hw, hm, hd, pinPolls, pinPolls_append, pinPolls_reconnectEvents]
    · simp [hp, hw, pinPolls]

/-- Helper: elapsed time of one loop iteration with the broker down for all modeled attempts. -/
theorem elapsedMs_loopIter_brokerDown (fuel : Nat) :
    elapsedMs (loopIterEvents (envBrokerDown fuel)) = 5000 * fuel := by
  simp [loopIterEvents, envBrokerDown, elapsedMs, elapsedMs_reconnect_all_fail fuel 0]

/--
Claim C7 (counterexample): the claim says the reset pin is polled once in
every operating-loop iteration, including iterations in which the broker
is unreachable, so the reset latency is bounded by a single iteration's
own delay.  Each iteration does poll the pin exactly once — but an
iteration that enters reconnectMQTT while the broker is unreachable
delays 5000 ms per failed connect attempt without ever polling the pin,
so the delay of a single iteration (and with it the reset latency) is not
bounded by any constant.
-/
theorem reset_latency_unbounded_cex :
    (∀ fuel, pinPolls (loopIterEvents (envBrokerDown fuel)) = 1) ∧
    ¬ ∃ B, ∀ fuel, elapsedMs (loopIterEvents (envBrokerDown fuel)) ≤ B := by
  constructor
  · intro fuel
    exact pinPolls_loopIter (envBrokerDown fuel)
  · rintro ⟨B, hB⟩
    have h := hB (B + 1)
    rw [elapsedMs_loopIter_brokerDown] at h
    omega

/--
Claim C7 (amended): the reset pin is polled exactly once at the top of
every operating-loop iteration, but the reconnectMQTT loop entered when
the broker session is down performs no pin polls at all and delays
5000 ms for every failed connect attempt, so while the broker is
unreachable the latency between the pin being held low and the factory
reset firing is not bounded by a fixed per-iteration delay.
-/
theorem pin_polled_once_but_reconnect_blocks (env : LoopEnv) (brokerOk : Nat → Bool)
    (k fuel : Nat) :
    pinPolls (loopIterEvents env) = 1 ∧
    pinPolls (reconnectEvents brokerOk k fuel) = 0 ∧
    elapsedMs (reconnectEvents (fun _ => false) k fuel) = 5000 * fuel :=
  ⟨pinPolls_loopIter env, pinPolls_reconnectEvents brokerOk fuel k,
   elapsedMs_reconnect_all_fail fuel k⟩

/- ===== Claim C8 ===== -/

/-- Helper: each byte of the id contributes its padded two-character rendering, in order. -/
theorem deriveIdentityChars_eq_flatten (mac : List Nat) :
    deriveIdentityChars mac = (mac.map byteHexPadded).flatten := by
  unfold deriveIdentityChars
  have H : ∀ (l : List Nat) (a : List Char),
      (l.foldl (fun acc b => acc ++ (if b < 16 then ['0'] else []) ++ Nat.toDigits 16 b) a) =
        a ++ (l.map (fun b => (if b < 16 then ['0'] else []) ++ Nat.toDigits 16 b)).flatten := by
    intro l
    induction l with
    | nil => intro a; simp
    | cons b t ih =>
      intro a
      rw [List.foldl_cons, ih]
      simp [List.append_assoc]
  rw [H, List.nil_append, List.map_flatten, List.map_map]
  apply congrArg List.flatten
  apply List.map_congr_left
  intro b hb
  simp [byteHexPadded, Function.comp]

/-- Helper: every byte value below 256 renders as exactly two characters. -/
theorem byteHexPadded_length : ∀ b, b < 256 → (byteHexPadded b).length = 2 := by
  decide

/-- Helper: every character of a rendered byte is an uppercase hex digit. -/
theorem byteHexPadded_upperHex :
    ∀ b, b < 256 → ∀ c ∈ byteHexPadded b, isUpperHexDigit c = true := by
  decide

/--
Claim C8: the device-identity derivation is deterministic — it is modeled
as a pure function of the 6-byte hardware address, so equal addresses
give equal strings on every boot — and for every address of 6 bytes the
resulting string has exactly 12 characters, each byte contributing its
two-digit zero-padded uppercase hex rendering, and every character is an
uppercase hexadecimal digit.
-/
theorem deriveIdentity_12_uppercase_hex (mac : List Nat)
    (hlen : mac.length = 6) (hbytes : ∀ b ∈ mac, b < 256) :
    (deriveIdentity mac).length = 12 ∧
    (deriveIdentity mac).data = (mac.map byteHexPadded).flatten ∧
    ∀ c ∈ (deriveIdentity mac).data, isUpperHexDigit c = true := by
  have hd : (deriveIdentity mac).data = (mac.map byteHexPadded).flatten :=
    deriveIdentityChars_eq_flatten mac
  refine ⟨?_, hd, ?_⟩
  · show (deriveIdentity mac).data.length = 12
    rw [hd, List.length_flatten, List.map_map]
    have hc : mac.map (List.length ∘ byteHexPadded) = mac.map (fun _ => 2) :=
      List.map_congr_left (fun b hb => by
        simp [Function.comp, byteHexPadded_length b (hbytes b hb)])
    rw [hc]
    simp [List.map_const', hlen]
  · intro c hc
    rw [hd] at hc
    rcases List.mem_flatten.mp hc with ⟨l, hl, hcl⟩
    rcases List.mem_map.mp hl with ⟨b, hb, rfl⟩
    exact byteHexPadded_upperHex b (hbytes b hb) c hcl

/-- Witness for deriveIdentity_12_uppercase_hex at a concrete hardware address. -/
theorem deriveIdentity_12_uppercase_hex_witness :
    (deriveIdentity [170, 187, 204, 10, 188, 222]).length = 12 ∧
    isUpperHexDigit ('A') = true := by
  have h := deriveIdentity_12_uppercase_hex [170, 187, 204, 10, 188, 222]
    (by decide) (by decide)
  exact ⟨h.1, h.2.2 ('A') (by decide)⟩

/- ===== Claim C9 ===== -/

/-- Helper: constrain never goes below the lower bound. -/
theorem constrainValue_lower (x lo hi : Int) (h : lo ≤ hi) : lo ≤ constrainValue x lo hi := by
  unfold constrainValue
  split_ifs <;> omega

/-- Helper: constrain never goes above the upper bound. -/
theorem constrainValue_upper (x lo hi : Int) (h : lo ≤ hi) : constrainValue x lo hi ≤ hi := by
  unfold constrainValue
  split_ifs <;> omega

/-- Helper: constrain of a value at or below the lower bound is the lower bound. -/
theorem constrainValue_of_le (x lo hi : Int) (h : x ≤ lo) (hb : lo ≤ hi) :
    constrainValue x lo hi = lo := by
  unfold constrainValue
  split_ifs <;> omega

/-- Helper: constrain of a value at or above the upper bound is the upper bound. -/
theorem constrainValue_of_ge (x lo hi : Int) (h : hi ≤ x) (hb : lo ≤ hi) :
    constrainValue x lo hi = hi := by
  unfold constrainValue
  split_ifs <;> omega

/-- Helper: at or beyond the dry calibration point the mapped value is nonpositive. -/
theorem mapValue_nonpos_of_dry (raw : Int) (h : DRY_VALUE ≤ raw) :
    mapValue raw DRY_VALUE WET_VALUE 0 100 ≤ 0 := by
  unfold DRY_VALUE at h
  unfold mapValue DRY_VALUE WET_VALUE
  have ha : 0 ≤ (raw - 2850) * 100 := by
    have h0 : 0 ≤ raw - 2850 := by omega
    exact mul_nonneg h0 (by norm_num)
  have h2 : ((1350 : Int) - 2850) = -(1500) := by norm_num
  rw [show ((100 : Int) - 0) = 100 by norm_num, h2, Int.tdiv_neg]
  have h3 : 0 ≤ Int.tdiv ((raw - 2850) * 100) 1500 := Int.tdiv_nonneg ha (by norm_num)
  omega

/-- Helper: at or beyond the wet calibration point the mapped value is at least 100. -/
theorem mapValue_ge_100_of_wet (raw : Int) (h : raw ≤ WET_VALUE) :
    100 ≤ mapValue raw DRY_VALUE WET_VALUE 0 100 := by
  unfold WET_VALUE at h
  unfold mapValue DRY_VALUE WET_VALUE
  have h2 : ((1350 : Int) - 2850) = -(1500) := by norm_num
  have hneg : (raw - 2850) * ((100 : Int) - 0) = -((2850 - raw) * 100) := by ring
  rw [hneg, h2, Int.tdiv_neg, Int.neg_tdiv, neg_neg]
  have hx : (0 : Int) ≤ (2850 - raw) * 100 := by
    have h0 : (0 : Int) ≤ 2850 - raw := by omega
    exact mul_nonneg h0 (by norm_num)
  rw [Int.tdiv_eq_ediv hx (by norm_num)]
  have := (Int.le_ediv_iff_mul_le (show (0 : Int) < 1500 by norm_num)).mpr
    (show (100 : Int) * 1500 ≤ (2850 - raw) * 100 by nlinarith)
  omega

/--
Claim C9: for every raw analog sensor value, readSensorData stays within
0 to 100; a raw value at (or drier than) the dry calibration constant
yields exactly 0, and a raw value at (or wetter than) the wet calibration
constant yields exactly 100 — so values beyond either calibration bound
clamp to the corresponding end of the range.
-/
theorem readSensorData_in_range_and_clamps (raw : Int) :
    0 ≤ readSensorData raw ∧ readSensorData raw ≤ 100 ∧
    (DRY_VALUE ≤ raw → readSensorData raw = 0) ∧
    (raw ≤ WET_VALUE → readSensorData raw = 100) := by
  refine ⟨?_, ?_, ?_, ?_⟩
  · exact constrainValue_lower _ 0 100 (by norm_num)
  · exact constrainValue_upper _ 0 100 (by norm_num)
  · intro h
    exact constrainValue_of_le _ 0 100 (mapValue_nonpos_of_dry raw h) (by norm_num)
  · intro h
    exact constrainValue_of_ge _ 0 100 (mapValue_ge_100_of_wet raw h) (by norm_num)

/-- Witness for readSensorData_in_range_and_clamps at concrete raw readings. -/
theorem readSensorData_in_range_and_clamps_witness :
    readSensorData 2850 = 0 ∧ readSensorData 1350 = 100 ∧
    readSensorData 4095 = 0 ∧ readSensorData 0 = 100 ∧
    0 ≤ readSensorData 2000 ∧ readSensorData 2000 ≤ 100 :=
  ⟨(readSensorData_in_range_and_clamps 2850).2.2.1 (by decide),
   (readSensorData_in_range_and_clamps 1350).2.2.2 (by decide),
   (readSensorData_in_range_and_clamps 4095).2.2.1 (by decide),
   (readSensorData_in_range_and_clamps 0).2.2.2 (by decide),
   (readSensorData_in_range_and_clamps 2000).1,
   (readSensorData_in_range_and_clamps 2000).2.1⟩
